import Mathlib

/-
Verification of the protocol engine of the Miele XKM3100W gateway
(src/miele_gateway.py): canonical signing-string construction, the
HMAC-SHA256 authentication header, AES-256-CBC response decryption,
host validation, device-path normalization, JSON link rewriting and
the orchestrator's response handling.

Bytes are modelled as `Nat` values below 256 in `List Nat`; Python
strings as Lean `String` (or `List Char` where character-level
reasoning is needed).  External library primitives that the source
calls (Python's `hashlib`/`hmac`, the `cryptography` AES-CBC cipher,
`ipaddress.ip_address`, `re.match`, `str.encode`) are embedded from
their documented semantics, faithfully to how the source invokes them.
-/

set_option autoImplicit false
set_option maxRecDepth 1000000

namespace MieleGateway

/-- Standard Miele Accept header, from `accept_header` (line 40 of the source). -/
def accept_header : String := "application/vnd.miele.v1+json"

/-- The canonical signing string built at line 289 of the source:
`f'GET\n{host}{resource_path_on_device}\n\n{accept_header}\n{current_time_gmt}\n'`. -/
def signing_string (host resource_path_on_device current_time_gmt : String) : String :=
  "GET\n" ++ host ++ resource_path_on_device ++ "\n\n" ++ accept_header ++ "\n"
    ++ current_time_gmt ++ "\n"

/-- UTF-8 encoding of a single Unicode code point (RFC 3629), the byte
sequence `str.encode('utf-8')` produces for one character. -/
def utf8EncodeChar (c : Nat) : List Nat :=
  if c < 0x80 then [c]
  else if c < 0x800 then [0xC0 + c / 0x40, 0x80 + c % 0x40]
  else if c < 0x10000 then [0xE0 + c / 0x1000, 0x80 + c / 0x40 % 0x40, 0x80 + c % 0x40]
  else [0xF0 + c / 0x40000, 0x80 + c / 0x1000 % 0x40, 0x80 + c / 0x40 % 0x40, 0x80 + c % 0x40]

/-- Python's `s.encode('utf-8')` (used at line 291 of the source to turn the
signing string into the bytes that are HMAC-signed). -/
def utf8Encode (s : String) : List Nat :=
  s.data.foldr (fun c acc => utf8EncodeChar c.toNat ++ acc) []

theorem utf8Encode_ascii_list (l : List Char) (h : ∀ c ∈ l, c.toNat < 128) :
    l.foldr (fun c acc => utf8EncodeChar c.toNat ++ acc) [] = l.map Char.toNat := by
  induction l with
  | nil => rfl
  | cons c cs ih =>
    have hc : c.toNat < 128 := h c (List.mem_cons_self c cs)
    have ih' := ih (fun x hx => h x (List.mem_cons_of_mem c hx))
    rw [List.foldr_cons, ih', List.map_cons]
    simp only [utf8EncodeChar, if_pos hc]
    rfl

/-- C1: for every host, device path beginning with '/', and HTTP-date, the
canonical signing string for a GET request is
`"GET\n" ++ host ++ devicePath ++ "\n\n" ++ acceptHeader ++ "\n" ++ httpDate ++ "\n"`
(with a literal empty Content-Type line), and at the golden inputs it equals
the pinned byte-for-byte string. -/
theorem C1_signing_string_format (host devicePath date : String)
    (h : devicePath.data.head? = some '/') :
    signing_string host devicePath date =
      "GET\n" ++ host ++ devicePath ++ "\n\n" ++ accept_header ++ "\n" ++ date ++ "\n" ∧
    signing_string "192.168.1.10" "/Devices/000123456789/State"
        "Tue, 01 Jan 2030 00:00:00 GMT" =
      "GET\n192.168.1.10/Devices/000123456789/State\n\napplication/vnd.miele.v1+json\nTue, 01 Jan 2030 00:00:00 GMT\n" :=
  ⟨rfl, rfl⟩

/-- Witness for C1 at the golden concrete inputs. -/
theorem C1_signing_string_format_witness :
    signing_string "192.168.1.10" "/Devices/000123456789/State"
        "Tue, 01 Jan 2030 00:00:00 GMT" =
      "GET\n192.168.1.10/Devices/000123456789/State\n\napplication/vnd.miele.v1+json\nTue, 01 Jan 2030 00:00:00 GMT\n" :=
  (C1_signing_string_format "192.168.1.10" "/Devices/000123456789/State"
      "Tue, 01 Jan 2030 00:00:00 GMT" (by decide)).2

/-- C9 counterexample: the signing string is encoded with UTF-8, not 7-bit
ASCII: a component containing a non-ASCII character yields bytes above 127,
so the bytes fed to the HMAC are not an ASCII encoding. -/
theorem C9_utf8_not_ascii_counterexample :
    utf8Encode "ü" = [195, 188] ∧ ¬(∀ b ∈ utf8Encode "ü", b < 128) := by
  constructor
  · rfl
  · decide

/-- C9 (amended): line 291 of the source encodes the signing string with
UTF-8 unconditionally (no ASCII encoding step and no logging); on purely
ASCII input the signed bytes coincide with the ASCII encoding, one byte per
character. -/
theorem C9_ascii_signing_bytes (s : String) (h : ∀ c ∈ s.data, c.toNat < 128) :
    utf8Encode s = s.data.map Char.toNat :=
  utf8Encode_ascii_list s.data h

/-- Witness for C9 at the golden signing string. -/
theorem C9_ascii_signing_bytes_witness :
    utf8Encode (signing_string "192.168.1.10" "/Devices/000123456789/State"
        "Tue, 01 Jan 2030 00:00:00 GMT") =
      (signing_string "192.168.1.10" "/Devices/000123456789/State"
        "Tue, 01 Jan 2030 00:00:00 GMT").data.map Char.toNat :=
  C9_ascii_signing_bytes _ (by decide)

/-! Device-path normalization (lines 265 and 277 of the source):
`path_parts = resource.strip('/').split('/')` and
`resource_path_on_device = '/' + '/'.join(path_parts[1:])`. -/

/-- Python's `resource.strip('/')`: remove all leading and trailing '/'
characters. -/
def pyStripSlashes (l : List Char) : List Char :=
  ((l.dropWhile (· == '/')).reverse.dropWhile (· == '/')).reverse

/-- Line 265: `path_parts = resource.strip('/').split('/')`; Python's
`str.split('/')` keeps empty segments, which is `List.splitOn`. -/
def path_parts (resource : List Char) : List (List Char) :=
  (pyStripSlashes resource).splitOn '/'

/-- Line 277: `resource_path_on_device = '/' + '/'.join(path_parts[1:])`. -/
def normalize_device_path (resource : List Char) : List Char :=
  '/' :: List.intercalate ['/'] (path_parts resource).tail

theorem head?_dropWhile_not {α} (p : α → Bool) (l : List α) (a : α)
    (h : (l.dropWhile p).head? = some a) : p a = false := by
  induction l with
  | nil => simp at h
  | cons c cs ih =>
    by_cases hc : p c
    · rw [List.dropWhile_cons_of_pos hc] at h
      exact ih h
    · rw [List.dropWhile_cons_of_neg hc] at h
      simp only [List.head?_cons, Option.some.injEq] at h
      subst h
      exact Bool.eq_false_iff.mpr hc

theorem pyStripSlashes_getLast (resource : List Char) :
    (pyStripSlashes resource).getLast? ≠ some '/' := by
  intro h
  rw [pyStripSlashes, List.getLast?_reverse] at h
  have := head?_dropWhile_not (· == '/') _ _ h
  simp at this

theorem intercalate_cons_of_ne_nil {α} (a : α) (s : List α) (t : List (List α))
    (h : t ≠ []) :
    List.intercalate [a] (s :: t) = s ++ a :: List.intercalate [a] t := by
  cases t with
  | nil => exact absurd rfl h
  | cons u v =>
    simp only [List.intercalate, List.intersperse_cons_cons, List.flatten_cons,
      List.singleton_append, List.append_assoc]

/-- C6 counterexample: for the raw request path `"h/a/"` the original device
path `"a/"` ends with a trailing slash, but the normalized path is `"/a"`,
which does not (the strip of line 265 removes it); and for `"h//a"` the
normalized path is `"//a"`, which does not begin with a single leading
slash. -/
theorem C6_trailing_slash_counterexample :
    normalize_device_path "h/a/".data = "/a".data ∧
    "/a".data.getLast? ≠ some '/' ∧
    normalize_device_path "h//a".data = "//a".data ∧
    "//a".data.take 2 = ['/', '/'] := by
  refine ⟨by decide, by decide, by decide, by decide⟩

/-- C6 (amended): the normalized device path always begins with '/',
collapses to exactly "/" when no path segments remain after the host
segment, and a trailing '/' of the original device path is never preserved:
a non-root normalized path never ends with '/'.  (It may begin with "//"
when the original path has an empty segment right after the host.) -/
theorem C6_normalize_device_path (resource : List Char) :
    (normalize_device_path resource).head? = some '/' ∧
    ((path_parts resource).tail = [] → normalize_device_path resource = ['/']) ∧
    (normalize_device_path resource ≠ ['/'] →
      (normalize_device_path resource).getLast? ≠ some '/') := by
  refine ⟨rfl, ?_, ?_⟩
  · intro ht
    simp [normalize_device_path, ht, List.intercalate]
  · intro hne
    obtain ⟨h₀, t, hpt⟩ : ∃ h₀ t, path_parts resource = h₀ :: t := by
      cases hsp : path_parts resource with
      | nil => exact absurd hsp (List.splitOnP_ne_nil _ _)
      | cons a b => exact ⟨a, b, rfl⟩
    cases t with
    | nil =>
      refine absurd ?_ hne
      simp [normalize_device_path, hpt, List.intercalate]
    | cons u v =>
      have hstr : h₀ ++ '/' :: List.intercalate ['/'] (u :: v) =
          pyStripSlashes resource := by
        rw [← intercalate_cons_of_ne_nil '/' h₀ (u :: v) (by simp), ← hpt]
        exact List.intercalate_splitOn _ '/'
      have hlast := pyStripSlashes_getLast resource
      rw [← hstr, List.getLast?_append_cons] at hlast
      have hp : normalize_device_path resource =
          '/' :: List.intercalate ['/'] (u :: v) := by
        rw [normalize_device_path, hpt, List.tail_cons]
      cases hX : List.intercalate ['/'] (u :: v) with
      | nil =>
        rw [hX] at hlast
        simp at hlast
      | cons x xs =>
        rw [hX] at hlast
        rw [hp, hX, List.getLast?_cons_cons]
        exact hlast

/-- Witness for C6 at concrete inputs: a host-only path collapses to "/",
and a non-root path does not end with '/'. -/
theorem C6_normalize_device_path_witness :
    normalize_device_path "h".data = ['/'] ∧
    (normalize_device_path "h/a".data).getLast? ≠ some '/' :=
  ⟨(C6_normalize_device_path "h".data).2.1 (by decide),
   (C6_normalize_device_path "h/a".data).2.2 (by decide)⟩

/-! Host validation (`is_valid_host`, lines 47-63 of the source).  The
function first tries Python's `ipaddress.ip_address` and, failing that,
checks `len(host) <= 253` and matches the hostname regex
`^(([a-zA-Z0-9]([a-zA-Z0-9\-]{0,61}[a-zA-Z0-9])?)\.)*[a-zA-Z0-9]([a-zA-Z0-9\-]{0,61}[a-zA-Z0-9])?$`
with `re.match`.  The models of `ipaddress` and `re` below follow CPython's
documented semantics; in particular `$` in a Python regex also matches just
before a single trailing newline. -/

/-- Decimal value of a digit string (used for IPv4 octets). -/
def decDigitsVal (l : List Char) : Nat :=
  l.foldl (fun n c => 10 * n + (c.toNat - 48)) 0

/-- One octet per CPython `IPv4Address._parse_octet`: 1-3 ASCII digits, no
leading zero unless the octet is exactly "0", value at most 255. -/
def isIPv4Octet (l : List Char) : Bool :=
  !l.isEmpty && l.length ≤ 3 && l.all Char.isDigit &&
    (l.length ≤ 1 || l.head?.getD '0' != '0') && decDigitsVal l ≤ 255

/-- CPython `IPv4Address` string acceptance: exactly four dot-separated
valid octets. -/
def isIPv4 (l : List Char) : Bool :=
  let parts := l.splitOn '.'
  parts.length == 4 && parts.all isIPv4Octet

/-- ASCII hexadecimal digit. -/
def isHexDigitChar (c : Char) : Bool :=
  c.isDigit || ('a' ≤ c && c ≤ 'f') || ('A' ≤ c && c ≤ 'F')

/-- One hextet per CPython `IPv6Address._parse_hextet`: 1-4 hex digits. -/
def isHextet (l : List Char) : Bool :=
  !l.isEmpty && l.length ≤ 4 && l.all isHexDigitChar

/-- CPython `IPv6Address._ip_int_from_string` acceptance on the colon part
list (after the optional trailing embedded IPv4 has been replaced by two
hextet parts): at most one empty interior part (the `::`), a leading or
trailing empty part only next to the `::`, at most 8 hextets in total with
at least one skipped by `::`, or exactly 8 hextets and no `::`. -/
def isIPv6Core (parts : List (List Char)) : Bool :=
  let n := parts.length
  let interior := (parts.take (n - 1)).drop 1
  let empties := interior.countP (fun p => p.isEmpty)
  if 1 < empties then false
  else if empties = 1 then
    let skipIdx := 1 + interior.findIdx (fun p => p.isEmpty)
    let hi0 := skipIdx
    let lo0 := n - skipIdx - 1
    let firstEmpty := (parts.head?.getD []).isEmpty
    let lastEmpty := (parts.getLast?.getD []).isEmpty
    let hi := if firstEmpty then hi0 - 1 else hi0
    let lo := if lastEmpty then lo0 - 1 else lo0
    if firstEmpty && hi0 - 1 != 0 then false
    else if lastEmpty && lo0 - 1 != 0 then false
    else if 7 < hi + lo then false
    else (parts.take hi).all isHextet && (parts.drop (n - lo)).all isHextet
  else
    n == 8 && !(parts.head?.getD []).isEmpty && !(parts.getLast?.getD []).isEmpty &&
      parts.all isHextet

/-- CPython `IPv6Address` acceptance without a scope id: at least three
colon-separated parts; a last part containing '.' must be a valid embedded
IPv4 address and counts as two hextets. -/
def isIPv6NoScope (l : List Char) : Bool :=
  let parts := l.splitOn ':'
  if parts.length < 3 then false
  else
    let lastp := parts.getLast?.getD []
    if lastp.contains '.' then
      if isIPv4 lastp then
        let parts' := parts.dropLast ++ [['0'], ['0']]
        if 9 < parts'.length then false else isIPv6Core parts'
      else false
    else if 9 < parts.length then false
    else isIPv6Core parts

/-- CPython `IPv6Address` acceptance: an optional `%scope` suffix (scope
nonempty, containing no '%') split off at the first '%'. -/
def isIPv6 (l : List Char) : Bool :=
  match l.splitOn '%' with
  | [addr] => isIPv6NoScope addr
  | [addr, scope] => !scope.isEmpty && isIPv6NoScope addr
  | _ => false

/-- CPython `ipaddress.ip_address` acceptance: IPv4, then IPv6. -/
def pyIsIPAddress (l : List Char) : Bool :=
  isIPv4 l || isIPv6 l

/-- One DNS label of the hostname regex:
`[a-zA-Z0-9]([a-zA-Z0-9\-]{0,61}[a-zA-Z0-9])?` - 1 to 63 characters,
alphanumeric at both ends, alphanumeric or hyphen inside. -/
def isLabel (l : List Char) : Bool :=
  !l.isEmpty && l.length ≤ 63 &&
    (l.head?.getD '-').isAlphanum && (l.getLast?.getD '-').isAlphanum &&
    l.all (fun c => c.isAlphanum || c == '-')

/-- The hostname regex body `^(label\.)*label$`: every dot-separated part is
a valid label (so no empty labels, no leading or trailing dot). -/
def hostnameLabelsMatch (l : List Char) : Bool :=
  (l.splitOn '.').all isLabel

/-- CPython `re.match` of the anchored hostname regex: `$` matches at the
end of the string or just before a single trailing newline. -/
def reMatchHostname (l : List Char) : Bool :=
  hostnameLabelsMatch l ||
    (l.getLast? == some '\n' && hostnameLabelsMatch l.dropLast)

/-- `is_valid_host` (lines 47-63 of the source): empty is rejected, then
`ipaddress.ip_address` is tried, then the hostname regex together with the
253-character bound. -/
def is_valid_host (host : List Char) : Bool :=
  if host.isEmpty then false
  else if pyIsIPAddress host then true
  else host.length ≤ 253 && reMatchHostname host

/-- C5: the code accepts the string "a\n", which is neither an IP literal
nor a DNS hostname and contains a character ('\n') outside
letters/digits/hyphens/dots, because Python's `$` anchor also matches just
before a trailing newline; the claim says every such string is rejected. -/
theorem C5_newline_host_accepted :
    is_valid_host "a\n".data = true ∧
    pyIsIPAddress "a\n".data = false ∧
    '\n' ∈ "a\n".data ∧
    ¬('\n'.isAlphanum ∨ '\n' = '-' ∨ '\n' = '.') := by
  refine ⟨by decide, by decide, by decide, by decide⟩

/-! Link rewriter (`iterate_to_all_hrefs`, lines 121-145 of the source).
JSON values are the closed variant set `null`, `bool`, number, string,
array, object; the source mutates the parsed tree in place, which is the
functional rewrite below. -/

/-- JSON tree as produced by `json.loads`. -/
inductive Json where
  | null : Json
  | bool (b : Bool) : Json
  | num (n : Int) : Json
  | str (s : String) : Json
  | arr (items : List Json) : Json
  | obj (fields : List (String × Json)) : Json

/-- Python's `value.lstrip('/')`. -/
def pyLStripSlash (s : String) : String :=
  String.mk (s.data.dropWhile (· == '/'))

/-- Python's `value.rstrip('/')`. -/
def pyRStripSlash (s : String) : String :=
  String.mk ((s.data.reverse.dropWhile (· == '/')).reverse)

/-- The replacement anchor built at lines 132-138 of the source:
`full_target_path = f"{base_path.rstrip('/')}/{value.lstrip('/')}"`,
`proxy_link = f'/explore/{host}/{full_target_path.lstrip("/")}'`, and the
anchor `f'<a href="{proxy_link}">{value}</a>'`. -/
def hrefAnchor (host base_path value : String) : String :=
  let full_target_path := pyRStripSlash base_path ++ "/" ++ pyLStripSlash value
  let proxy_link := "/explore/" ++ host ++ "/" ++ pyLStripSlash full_target_path
  "<a href=\"" ++ proxy_link ++ "\">" ++ value ++ "</a>"

mutual

/-- `iterate_to_all_hrefs` from the source: on a dict, replace each field
named `href` holding a non-empty string by the anchor and recurse into every
other value; on a list, recurse into the items; leaves are untouched. -/
def iterate_to_all_hrefs (host base_path : String) : Json → Json
  | .obj fields => .obj (iterateFields host base_path fields)
  | .arr items => .arr (iterateItems host base_path items)
  | .null => .null
  | .bool b => .bool b
  | .num n => .num n
  | .str s => .str s

/-- The `for key, value in obj.items()` loop of the source. -/
def iterateFields (host base_path : String) :
    List (String × Json) → List (String × Json)
  | [] => []
  | (key, Json.str s) :: rest =>
    (if key == "href" && s != "" then (key, Json.str (hrefAnchor host base_path s))
     else (key, iterate_to_all_hrefs host base_path (Json.str s))) ::
      iterateFields host base_path rest
  | (key, value) :: rest =>
    (key, iterate_to_all_hrefs host base_path value) ::
      iterateFields host base_path rest

/-- The `for i, item in enumerate(obj)` loop of the source. -/
def iterateItems (host base_path : String) : List Json → List Json
  | [] => []
  | item :: rest =>
    iterate_to_all_hrefs host base_path item :: iterateItems host base_path rest

end

theorem hrefAnchor_eq (host base_path s : String) :
    hrefAnchor host base_path s =
      "<a href=\"/explore/" ++ host ++ "/" ++
        pyLStripSlash (pyRStripSlash base_path ++ "/" ++ pyLStripSlash s) ++
        "\">" ++ s ++ "</a>" := by
  simp only [hrefAnchor, String.append_assoc]
  rw [← String.append_assoc "<a href=\"" "/explore/"]
  rfl

theorem iterateItems_eq_map (host base_path : String) (items : List Json) :
    iterateItems host base_path items =
      items.map (iterate_to_all_hrefs host base_path) := by
  induction items with
  | nil => rfl
  | cons x xs ih => simp [iterateItems, ih]

theorem iterateFields_eq_map (host base_path : String)
    (fields : List (String × Json)) :
    iterateFields host base_path fields = fields.map (fun kv =>
      match kv with
      | (k, Json.str s) =>
        if k = "href" ∧ s ≠ "" then (k, Json.str (hrefAnchor host base_path s))
        else (k, iterate_to_all_hrefs host base_path (Json.str s))
      | (k, v) => (k, iterate_to_all_hrefs host base_path v)) := by
  induction fields with
  | nil => rfl
  | cons kv rest ih =>
    obtain ⟨k, v⟩ := kv
    cases v with
    | str s =>
      simp only [iterateFields, ih, List.map_cons]
      congr 1
      by_cases hk : k = "href"
      · by_cases hs : s = ""
        · subst hk hs
          simp
        · subst hk
          simp [hs]
      · simp [hk]
    | null => simp [iterateFields, ih]
    | bool b => simp [iterateFields, ih]
    | num n => simp [iterateFields, ih]
    | arr xs => simp [iterateFields, ih]
    | obj fs => simp [iterateFields, ih]

/-- C7: the rewriter replaces exactly the object fields named `href` holding
a non-empty string by the anchor
`'<a href="/explore/' + host + '/' + (base path with trailing slashes
stripped, joined by a single '/' to the href value) + '">' + value + '</a>'`,
leaves every other field and every non-string or empty `href` value to the
recursive traversal, maps arrays by recursion, leaves leaves unchanged, and
on `{"href": "State"}` with host `"h"` and base path `"/Devices/1/"` yields
the pinned anchor. -/
theorem C7_link_rewriter (host base_path : String) :
    (∀ fields, iterate_to_all_hrefs host base_path (Json.obj fields) =
      Json.obj (fields.map fun kv =>
        match kv with
        | (k, Json.str s) =>
          if k = "href" ∧ s ≠ "" then
            (k, Json.str ("<a href=\"/explore/" ++ host ++ "/" ++
              pyLStripSlash (pyRStripSlash base_path ++ "/" ++ pyLStripSlash s) ++
              "\">" ++ s ++ "</a>"))
          else (k, iterate_to_all_hrefs host base_path (Json.str s))
        | (k, v) => (k, iterate_to_all_hrefs host base_path v))) ∧
    (∀ items, iterate_to_all_hrefs host base_path (Json.arr items) =
      Json.arr (items.map (iterate_to_all_hrefs host base_path))) ∧
    (∀ s, iterate_to_all_hrefs host base_path (Json.str s) = Json.str s) ∧
    (∀ b, iterate_to_all_hrefs host base_path (Json.bool b) = Json.bool b) ∧
    (∀ n, iterate_to_all_hrefs host base_path (Json.num n) = Json.num n) ∧
    iterate_to_all_hrefs host base_path Json.null = Json.null ∧
    iterate_to_all_hrefs "h" "/Devices/1/" (Json.obj [("href", Json.str "State")]) =
      Json.obj [("href", Json.str "<a href=\"/explore/h/Devices/1/State\">State</a>")] := by
  refine ⟨?_, ?_, fun s => rfl, fun b => rfl, fun n => rfl, rfl, rfl⟩
  · intro fields
    simp only [iterate_to_all_hrefs, iterateFields_eq_map, hrefAnchor_eq]
  · intro items
    simp only [iterate_to_all_hrefs, iterateItems_eq_map]

/-! SHA-256 and HMAC-SHA256 (FIPS 180-4 / RFC 2104), the semantics of
Python's `hashlib.sha256` and `hmac.new(key, msg, hashlib.sha256)` used at
line 291 of the source.  Words are `Nat` values below 2^32; all recursion is
structural so the functions evaluate inside the kernel. -/

def w32 : Nat := 4294967296

def add32 (a b : Nat) : Nat := (a + b) % w32

/-- Right rotation of a 32-bit word. -/
def rotr32 (n x : Nat) : Nat := (x >>> n) ||| ((x <<< (32 - n)) % w32)

def bigSigma0 (x : Nat) : Nat := rotr32 2 x ^^^ rotr32 13 x ^^^ rotr32 22 x

def bigSigma1 (x : Nat) : Nat := rotr32 6 x ^^^ rotr32 11 x ^^^ rotr32 25 x

def smallSigma0 (x : Nat) : Nat := rotr32 7 x ^^^ rotr32 18 x ^^^ (x >>> 3)

def smallSigma1 (x : Nat) : Nat := rotr32 17 x ^^^ rotr32 19 x ^^^ (x >>> 10)

def chF (x y z : Nat) : Nat := (x &&& y) ^^^ ((x ^^^ 0xffffffff) &&& z)

def majF (x y z : Nat) : Nat := (x &&& y) ^^^ (x &&& z) ^^^ (y &&& z)

/-- The 64 SHA-256 round constants of FIPS 180-4 section 4.2.2, written in
decimal. -/
def sha256K : List Nat := [
  1116352408, 1899447441, 3049323471, 3921009573, 961987163, 1508970993,
  2453635748, 2870763221, 3624381080, 310598401, 607225278, 1426881987,
  1925078388, 2162078206, 2614888103, 3248222580, 3835390401, 4022224774,
  264347078, 604807628, 770255983, 1249150122, 1555081692, 1996064986,
  2554220882, 2821834349, 2952996808, 3210313671, 3336571891, 3584528711,
  113926993, 338241895, 666307205, 773529912, 1294757372, 1396182291,
  1695183700, 1986661051, 2177026350, 2456956037, 2730485921, 2820302411,
  3259730800, 3345764771, 3516065817, 3600352804, 4094571909, 275423344,
  430227734, 506948616, 659060556, 883997877, 958139571, 1322822218,
  1537002063, 1747873779, 1955562222, 2024104815, 2227730452, 2361852424,
  2428436474, 2756734187, 3204031479, 3329325298
]

/-- The eight SHA-256 initial hash words of FIPS 180-4 section 5.3.3,
written in decimal. -/
def sha256H0 : List Nat := [
  1779033703, 3144134277, 1013904242, 2773480762, 1359893119, 2600822924,
  528734635, 1541459225
]

/-- Big-endian packing of bytes into 32-bit words. -/
def bytesToWords : List Nat → List Nat
  | b0 :: b1 :: b2 :: b3 :: rest =>
    (((b0 * 256 + b1) * 256 + b2) * 256 + b3) :: bytesToWords rest
  | _ => []

/-- Extend a 16-word block schedule by `k` further words. -/
def extendSchedule (ws : List Nat) : Nat → List Nat
  | 0 => ws
  | k + 1 =>
    let n := ws.length
    let w := add32 (add32 (smallSigma1 (ws.getD (n - 2) 0)) (ws.getD (n - 7) 0))
      (add32 (smallSigma0 (ws.getD (n - 15) 0)) (ws.getD (n - 16) 0))
    extendSchedule (ws ++ [w]) k

/-- The 64 compression rounds over state `[a, b, c, d, e, f, g, h]`. -/
def sha256Rounds : List Nat → List (Nat × Nat) → List Nat
  | [a, b, c, d, e, f, g, h], (k, w) :: rest =>
    let t1 := add32 h (add32 (bigSigma1 e) (add32 (chF e f g) (add32 k w)))
    let t2 := add32 (bigSigma0 a) (majF a b c)
    sha256Rounds [add32 t1 t2, a, b, c, add32 d t1, e, f, g] rest
  | st, _ => st

/-- One SHA-256 compression: schedule the 64-byte block, run the rounds and
add the result to the incoming state. -/
def compressBlock (st : List Nat) (block : List Nat) : List Nat :=
  let ws := extendSchedule (bytesToWords block) 48
  List.zipWith add32 st (sha256Rounds st (sha256K.zip ws))

/-- Merkle-Damgard padding: `0x80`, zeros to 56 mod 64, 8-byte big-endian
bit length. -/
def sha256Pad (msg : List Nat) : List Nat :=
  let len := msg.length
  let bitLen := 8 * len
  msg ++ 0x80 :: List.replicate ((119 - len % 64) % 64) 0 ++
    [bitLen >>> 56 % 256, bitLen >>> 48 % 256, bitLen >>> 40 % 256,
     bitLen >>> 32 % 256, bitLen >>> 24 % 256, bitLen >>> 16 % 256,
     bitLen >>> 8 % 256, bitLen % 256]

/-- Split into 64-byte blocks; the fuel argument makes the recursion
structural (any fuel at least the number of blocks gives the same result). -/
def chunks64 : Nat → List Nat → List (List Nat)
  | 0, _ => []
  | _, [] => []
  | fuel + 1, l => l.take 64 :: chunks64 fuel (l.drop 64)

/-- SHA-256 of a byte sequence, as a 32-byte sequence. -/
def sha256 (msg : List Nat) : List Nat :=
  let padded := sha256Pad msg
  let final := (chunks64 padded.length padded).foldl compressBlock sha256H0
  final.foldr (fun w acc =>
    w >>> 24 % 256 :: w >>> 16 % 256 :: w >>> 8 % 256 :: w % 256 :: acc) []

/-- HMAC-SHA256 (RFC 2104) with block size 64: a key longer than 64 bytes is
hashed first, then zero-padded to 64 bytes. -/
def hmacSha256 (key msg : List Nat) : List Nat :=
  let key' := if 64 < key.length then sha256 key else key
  let key0 := key' ++ List.replicate (64 - key'.length) 0
  sha256 ((key0.map (fun b => b ^^^ 0x5c)) ++
    sha256 ((key0.map (fun b => b ^^^ 0x36)) ++ msg))

/-- Upper-case hex digit, as produced by Python's `bytes.hex().upper()`. -/
def hexDigitUpper (n : Nat) : Char :=
  if n < 10 then Char.ofNat (48 + n) else Char.ofNat (55 + n)

/-- Python's `bytes.hex().upper()`: two upper-case hex digits per byte. -/
def bytesToHexUpper (bs : List Nat) : String :=
  String.mk (bs.foldr (fun b acc => hexDigitUpper (b / 16) :: hexDigitUpper (b % 16) :: acc) [])

/-- Lines 291-295 of the source: the HMAC-SHA256 signature over the UTF-8
bytes of the signing string, keyed with the full group key, and the
`Authorization` value `f'MieleH256 {group_id.hex().upper()}:{signature_hex}'`. -/
def auth_header_value (group_key group_id : List Nat) (signing : String) : String :=
  "MieleH256 " ++ bytesToHexUpper group_id ++ ":" ++
    bytesToHexUpper (hmacSha256 group_key (utf8Encode signing))

/-- C2: for every GroupKey, GroupID and signing string, the `Authorization`
value is `"MieleH256 "` followed by the upper-case hex GroupID, a colon and
the upper-case hex HMAC-SHA256 (keyed with the full GroupKey) of the signing
string bytes; with GroupKey = 64 zero bytes and GroupID = 8 zero bytes over
the golden signing string the digest is the pinned value
`7C6A21196717E5BC8E943E1C76C2569BD49E52E3C0F298FD616FDC89B2B9FE63`. -/
theorem C2_auth_header (group_key group_id : List Nat) (s : String) :
    auth_header_value group_key group_id s =
      "MieleH256 " ++ bytesToHexUpper group_id ++ ":" ++
        bytesToHexUpper (hmacSha256 group_key (utf8Encode s)) ∧
    hmacSha256 (List.replicate 64 0) (utf8Encode (signing_string "192.168.1.10"
        "/Devices/000123456789/State" "Tue, 01 Jan 2030 00:00:00 GMT")) =
      [124, 106, 33, 25, 103, 23, 229, 188, 142, 148, 62, 28, 118, 194, 86, 155,
       212, 158, 82, 227, 192, 242, 152, 253, 97, 111, 220, 137, 178, 185, 254, 99] ∧
    auth_header_value (List.replicate 64 0) (List.replicate 8 0)
        (signing_string "192.168.1.10" "/Devices/000123456789/State"
          "Tue, 01 Jan 2030 00:00:00 GMT") =
      "MieleH256 0000000000000000:7C6A21196717E5BC8E943E1C76C2569BD49E52E3C0F298FD616FDC89B2B9FE63" := by
  refine ⟨rfl, by decide, by decide⟩

/-! AES-256 (FIPS 197) and CBC mode, the semantics of the `cryptography`
library's `Cipher(algorithms.AES(key), modes.CBC(iv))` used by `decrypt`
(lines 66-116 of the source).  The state is the flat 16-byte block in input
order (index `r + 4*c` of the FIPS state matrix). -/

def sbox : List Nat := [
  0x63, 0x7c, 0x77, 0x7b, 0xf2, 0x6b, 0x6f, 0xc5,
  0x30, 0x01, 0x67, 0x2b, 0xfe, 0xd7, 0xab, 0x76,
  0xca, 0x82, 0xc9, 0x7d, 0xfa, 0x59, 0x47, 0xf0,
  0xad, 0xd4, 0xa2, 0xaf, 0x9c, 0xa4, 0x72, 0xc0,
  0xb7, 0xfd, 0x93, 0x26, 0x36, 0x3f, 0xf7, 0xcc,
  0x34, 0xa5, 0xe5, 0xf1, 0x71, 0xd8, 0x31, 0x15,
  0x04, 0xc7, 0x23, 0xc3, 0x18, 0x96, 0x05, 0x9a,
  0x07, 0x12, 0x80, 0xe2, 0xeb, 0x27, 0xb2, 0x75,
  0x09, 0x83, 0x2c, 0x1a, 0x1b, 0x6e, 0x5a, 0xa0,
  0x52, 0x3b, 0xd6, 0xb3, 0x29, 0xe3, 0x2f, 0x84,
  0x53, 0xd1, 0x00, 0xed, 0x20, 0xfc, 0xb1, 0x5b,
  0x6a, 0xcb, 0xbe, 0x39, 0x4a, 0x4c, 0x58, 0xcf,
  0xd0, 0xef, 0xaa, 0xfb, 0x43, 0x4d, 0x33, 0x85,
  0x45, 0xf9, 0x02, 0x7f, 0x50, 0x3c, 0x9f, 0xa8,
  0x51, 0xa3, 0x40, 0x8f, 0x92, 0x9d, 0x38, 0xf5,
  0xbc, 0xb6, 0xda, 0x21, 0x10, 0xff, 0xf3, 0xd2,
  0xcd, 0x0c, 0x13, 0xec, 0x5f, 0x97, 0x44, 0x17,
  0xc4, 0xa7, 0x7e, 0x3d, 0x64, 0x5d, 0x19, 0x73,
  0x60, 0x81, 0x4f, 0xdc, 0x22, 0x2a, 0x90, 0x88,
  0x46, 0xee, 0xb8, 0x14, 0xde, 0x5e, 0x0b, 0xdb,
  0xe0, 0x32, 0x3a, 0x0a, 0x49, 0x06, 0x24, 0x5c,
  0xc2, 0xd3, 0xac, 0x62, 0x91, 0x95, 0xe4, 0x79,
  0xe7, 0xc8, 0x37, 0x6d, 0x8d, 0xd5, 0x4e, 0xa9,
  0x6c, 0x56, 0xf4, 0xea, 0x65, 0x7a, 0xae, 0x08,
  0xba, 0x78, 0x25, 0x2e, 0x1c, 0xa6, 0xb4, 0xc6,
  0xe8, 0xdd, 0x74, 0x1f, 0x4b, 0xbd, 0x8b, 0x8a,
  0x70, 0x3e, 0xb5, 0x66, 0x48, 0x03, 0xf6, 0x0e,
  0x61, 0x35, 0x57, 0xb9, 0x86, 0xc1, 0x1d, 0x9e,
  0xe1, 0xf8, 0x98, 0x11, 0x69, 0xd9, 0x8e, 0x94,
  0x9b, 0x1e, 0x87, 0xe9, 0xce, 0x55, 0x28, 0xdf,
  0x8c, 0xa1, 0x89, 0x0d, 0xbf, 0xe6, 0x42, 0x68,
  0x41, 0x99, 0x2d, 0x0f, 0xb0, 0x54, 0xbb, 0x16
]

def invSbox : List Nat := [
  0x52, 0x09, 0x6a, 0xd5, 0x30, 0x36, 0xa5, 0x38,
  0xbf, 0x40, 0xa3, 0x9e, 0x81, 0xf3, 0xd7, 0xfb,
  0x7c, 0xe3, 0x39, 0x82, 0x9b, 0x2f, 0xff, 0x87,
  0x34, 0x8e, 0x43, 0x44, 0xc4, 0xde, 0xe9, 0xcb,
  0x54, 0x7b, 0x94, 0x32, 0xa6, 0xc2, 0x23, 0x3d,
  0xee, 0x4c, 0x95, 0x0b, 0x42, 0xfa, 0xc3, 0x4e,
  0x08, 0x2e, 0xa1, 0x66, 0x28, 0xd9, 0x24, 0xb2,
  0x76, 0x5b, 0xa2, 0x49, 0x6d, 0x8b, 0xd1, 0x25,
  0x72, 0xf8, 0xf6, 0x64, 0x86, 0x68, 0x98, 0x16,
  0xd4, 0xa4, 0x5c, 0xcc, 0x5d, 0x65, 0xb6, 0x92,
  0x6c, 0x70, 0x48, 0x50, 0xfd, 0xed, 0xb9, 0xda,
  0x5e, 0x15, 0x46, 0x57, 0xa7, 0x8d, 0x9d, 0x84,
  0x90, 0xd8, 0xab, 0x00, 0x8c, 0xbc, 0xd3, 0x0a,
  0xf7, 0xe4, 0x58, 0x05, 0xb8, 0xb3, 0x45, 0x06,
  0xd0, 0x2c, 0x1e, 0x8f, 0xca, 0x3f, 0x0f, 0x02,
  0xc1, 0xaf, 0xbd, 0x03, 0x01, 0x13, 0x8a, 0x6b,
  0x3a, 0x91, 0x11, 0x41, 0x4f, 0x67, 0xdc, 0xea,
  0x97, 0xf2, 0xcf, 0xce, 0xf0, 0xb4, 0xe6, 0x73,
  0x96, 0xac, 0x74, 0x22, 0xe7, 0xad, 0x35, 0x85,
  0xe2, 0xf9, 0x37, 0xe8, 0x1c, 0x75, 0xdf, 0x6e,
  0x47, 0xf1, 0x1a, 0x71, 0x1d, 0x29, 0xc5, 0x89,
  0x6f, 0xb7, 0x62, 0x0e, 0xaa, 0x18, 0xbe, 0x1b,
  0xfc, 0x56, 0x3e, 0x4b, 0xc6, 0xd2, 0x79, 0x20,
  0x9a, 0xdb, 0xc0, 0xfe, 0x78, 0xcd, 0x5a, 0xf4,
  0x1f, 0xdd, 0xa8, 0x33, 0x88, 0x07, 0xc7, 0x31,
  0xb1, 0x12, 0x10, 0x59, 0x27, 0x80, 0xec, 0x5f,
  0x60, 0x51, 0x7f, 0xa9, 0x19, 0xb5, 0x4a, 0x0d,
  0x2d, 0xe5, 0x7a, 0x9f, 0x93, 0xc9, 0x9c, 0xef,
  0xa0, 0xe0, 0x3b, 0x4d, 0xae, 0x2a, 0xf5, 0xb0,
  0xc8, 0xeb, 0xbb, 0x3c, 0x83, 0x53, 0x99, 0x61,
  0x17, 0x2b, 0x04, 0x7e, 0xba, 0x77, 0xd6, 0x26,
  0xe1, 0x69, 0x14, 0x63, 0x55, 0x21, 0x0c, 0x7d
]

/-- Multiplication by `x` in GF(2^8) modulo `x^8 + x^4 + x^3 + x + 1`. -/
def xtime (a : Nat) : Nat :=
  if a &&& 0x80 = 0x80 then ((a <<< 1) ^^^ 0x1b) &&& 0xff else (a <<< 1) &&& 0xff

def mul2 (a : Nat) : Nat := xtime a

def mul3 (a : Nat) : Nat := xtime a ^^^ a

def mul9 (a : Nat) : Nat := xtime (xtime (xtime a)) ^^^ a

def mul11 (a : Nat) : Nat := xtime (xtime (xtime a)) ^^^ xtime a ^^^ a

def mul13 (a : Nat) : Nat := xtime (xtime (xtime a)) ^^^ xtime (xtime a) ^^^ a

def mul14 (a : Nat) : Nat := xtime (xtime (xtime a)) ^^^ xtime (xtime a) ^^^ xtime a

def subBytes (st : List Nat) : List Nat := st.map (fun b => sbox.getD b 0)

def invSubBytes (st : List Nat) : List Nat := st.map (fun b => invSbox.getD b 0)

def shiftRows : List Nat → List Nat
  | [a0, a1, a2, a3, a4, a5, a6, a7, a8, a9, a10, a11, a12, a13, a14, a15] =>
    [a0, a5, a10, a15, a4, a9, a14, a3, a8, a13, a2, a7, a12, a1, a6, a11]
  | st => st

def invShiftRows : List Nat → List Nat
  | [a0, a1, a2, a3, a4, a5, a6, a7, a8, a9, a10, a11, a12, a13, a14, a15] =>
    [a0, a13, a10, a7, a4, a1, a14, a11, a8, a5, a2, a15, a12, a9, a6, a3]
  | st => st

def chunksOf4 : List Nat → List (List Nat)
  | a :: b :: c :: d :: rest => [a, b, c, d] :: chunksOf4 rest
  | _ => []

def mixCol : List Nat → List Nat
  | [x0, x1, x2, x3] =>
    [mul2 x0 ^^^ mul3 x1 ^^^ x2 ^^^ x3,
     x0 ^^^ mul2 x1 ^^^ mul3 x2 ^^^ x3,
     x0 ^^^ x1 ^^^ mul2 x2 ^^^ mul3 x3,
     mul3 x0 ^^^ x1 ^^^ x2 ^^^ mul2 x3]
  | c => c

def invMixCol : List Nat → List Nat
  | [x0, x1, x2, x3] =>
    [mul14 x0 ^^^ mul11 x1 ^^^ mul13 x2 ^^^ mul9 x3,
     mul9 x0 ^^^ mul14 x1 ^^^ mul11 x2 ^^^ mul13 x3,
     mul13 x0 ^^^ mul9 x1 ^^^ mul14 x2 ^^^ mul11 x3,
     mul11 x0 ^^^ mul13 x1 ^^^ mul9 x2 ^^^ mul14 x3]
  | c => c

def mixColumns (st : List Nat) : List Nat := ((chunksOf4 st).map mixCol).flatten

def invMixColumns (st : List Nat) : List Nat := ((chunksOf4 st).map invMixCol).flatten

def xorBytes (a b : List Nat) : List Nat := List.zipWith (fun x y => x ^^^ y) a b

def addRoundKey (st rk : List Nat) : List Nat := xorBytes st rk

def rconList : List Nat := [0x01, 0x02, 0x04, 0x08, 0x10, 0x20, 0x40]

def subWord (w : List Nat) : List Nat := w.map (fun b => sbox.getD b 0)

def rotWord : List Nat → List Nat
  | a :: rest => rest ++ [a]
  | [] => []

/-- AES-256 key expansion step loop (FIPS 197 section 5.2, Nk = 8). -/
def expandWords (ws : List (List Nat)) : Nat → List (List Nat)
  | 0 => ws
  | k + 1 =>
    let i := ws.length
    let prev := ws.getD (i - 1) []
    let temp :=
      if i % 8 = 0 then
        xorBytes (subWord (rotWord prev)) [rconList.getD (i / 8 - 1) 0, 0, 0, 0]
      else if i % 8 = 4 then subWord prev
      else prev
    expandWords (ws ++ [xorBytes (ws.getD (i - 8) []) temp]) k

/-- The 60 expansion words of a 32-byte key. -/
def keyWords (key : List Nat) : List (List Nat) :=
  expandWords (chunksOf4 key) 52

/-- Round key `n` as a flat 16-byte list. -/
def roundKey (ws : List (List Nat)) (n : Nat) : List Nat :=
  ((ws.drop (4 * n)).take 4).flatten

def encRounds (ws : List (List Nat)) : Nat → Nat → List Nat → List Nat
  | 0, _, st => st
  | k + 1, i, st =>
    encRounds ws k (i + 1)
      (addRoundKey (mixColumns (shiftRows (subBytes st))) (roundKey ws i))

/-- AES-256 block encryption (FIPS 197 Cipher, Nr = 14). -/
def aes256EncryptBlock (key block : List Nat) : List Nat :=
  let ws := keyWords key
  let st := encRounds ws 13 1 (addRoundKey block (roundKey ws 0))
  addRoundKey (shiftRows (subBytes st)) (roundKey ws 14)

def decRounds (ws : List (List Nat)) : Nat → Nat → List Nat → List Nat
  | 0, _, st => st
  | k + 1, i, st =>
    decRounds ws k (i - 1)
      (invMixColumns (addRoundKey (invSubBytes (invShiftRows st)) (roundKey ws i)))

/-- AES-256 block decryption (FIPS 197 InvCipher, Nr = 14). -/
def aes256DecryptBlock (key block : List Nat) : List Nat :=
  let ws := keyWords key
  let st := decRounds ws 13 13 (addRoundKey block (roundKey ws 14))
  addRoundKey (invSubBytes (invShiftRows st)) (roundKey ws 0)

/-- CBC encryption over a list of 16-byte blocks (`prev` is the IV). -/
def cbcEncryptBlocks (key prev : List Nat) : List (List Nat) → List (List Nat)
  | [] => []
  | b :: bs =>
    let c := aes256EncryptBlock key (xorBytes b prev)
    c :: cbcEncryptBlocks key c bs

/-- CBC decryption over a list of 16-byte blocks (`prev` is the IV). -/
def cbcDecryptBlocks (key prev : List Nat) : List (List Nat) → List (List Nat)
  | [] => []
  | c :: cs => xorBytes (aes256DecryptBlock key c) prev :: cbcDecryptBlocks key c cs

/-- Split into 16-byte blocks (fuel-structural like `chunks64`). -/
def chunks16 : Nat → List Nat → List (List Nat)
  | 0, _ => []
  | _, [] => []
  | fuel + 1, l => l.take 16 :: chunks16 fuel (l.drop 16)

instance {ε α : Type} [DecidableEq ε] [DecidableEq α] : DecidableEq (Except ε α) :=
  fun x y =>
    match x, y with
    | .ok a, .ok b =>
      if h : a = b then isTrue (by rw [h]) else isFalse (fun hh => h (Except.ok.inj hh))
    | .error a, .error b =>
      if h : a = b then isTrue (by rw [h]) else isFalse (fun hh => h (Except.error.inj hh))
    | .ok _, .error _ => isFalse (fun hh => Except.noConfusion hh)
    | .error _, .ok _ => isFalse (fun hh => Except.noConfusion hh)

/-- ASCII whitespace that Python's `bytes.fromhex` skips between byte pairs. -/
def pySpace (c : Char) : Bool :=
  c == ' ' || c == '\t' || c == '\n' || c == '\r' || c == '\x0b' || c == '\x0c'

def hexDigitVal (c : Char) : Option Nat :=
  if '0' ≤ c ∧ c ≤ '9' then some (c.toNat - 48)
  else if 'a' ≤ c ∧ c ≤ 'f' then some (c.toNat - 87)
  else if 'A' ≤ c ∧ c ≤ 'F' then some (c.toNat - 55)
  else none

/-- Python's `bytes.fromhex`: whitespace may separate byte pairs; each byte
is exactly two adjacent hex digits; anything else raises `ValueError`. -/
def bytesFromHex : List Char → Option (List Nat)
  | [] => some []
  | c :: rest =>
    if pySpace c then bytesFromHex rest
    else
      match hexDigitVal c, rest with
      | some hi, c2 :: rest2 =>
        (match hexDigitVal c2 with
         | some lo => (bytesFromHex rest2).map (fun bs => (16 * hi + lo) :: bs)
         | none => none)
      | _, _ => none

/-- `decrypt` (lines 66-116 of the source): AES-256 key = first 32 bytes of
the group key (error when shorter), IV = first 16 bytes of the hex-decoded
server signature (error on bad hex or fewer than 16 bytes), then the
`cryptography` library's AES-CBC `update`/`finalize`.  That library performs
raw CBC: `finalize` errors when the ciphertext is not a whole number of
16-byte blocks, and it neither removes nor checks any padding (contrary to
the comment at line 100 of the source). -/
def decrypt (payload group_key : List Nat) (signature_hex : String) :
    Except String (List Nat) :=
  if group_key.length < 32 then
    .error "Group key too short (< 32 bytes) to derive AES-256 key"
  else
    match bytesFromHex signature_hex.data with
    | none => .error "Invalid hex format in server signature for IV derivation"
    | some iv_buf =>
      if iv_buf.length < 16 then
        .error "Server signature too short (< 16 bytes) to derive 16-byte IV"
      else if payload.length % 16 ≠ 0 then
        .error "The length of the provided data is not a multiple of the block length"
      else
        .ok ((cbcDecryptBlocks (group_key.take 32) (iv_buf.take 16)
          (chunks16 payload.length payload)).flatten)

/-- Modelled from the spec: standard PKCS#7 padding to the 16-byte AES block
size, the encryption-side padding of the spec's round-trip property. -/
def pkcs7Pad (msg : List Nat) : List Nat :=
  let padLen := 16 - msg.length % 16
  msg ++ List.replicate padLen padLen

/-- Modelled from the spec: standard PKCS#7 unpadding with full validation,
what the spec says finalization performs on the decrypted data. -/
def pkcs7Unpad (msg : List Nat) : Option (List Nat) :=
  match msg.getLast? with
  | none => none
  | some n =>
    if 1 ≤ n ∧ n ≤ 16 ∧ n ≤ msg.length ∧ (msg.drop (msg.length - n)).all (· == n)
    then some (msg.take (msg.length - n)) else none

/-- Modelled from the spec: AES-256-CBC encryption of a PKCS#7-padded
plaintext, the encryption side of the spec's round-trip property. -/
def aesCbcEncryptPadded (key iv msg : List Nat) : List Nat :=
  let padded := pkcs7Pad msg
  (cbcEncryptBlocks key iv (chunks16 padded.length padded)).flatten

/-- C3: the round-trip does not reproduce the plaintext: encrypting `b'{}'`
with AES-256-CBC and standard PKCS#7 padding under key = groupKey[:32] and
IV = the first 16 decoded signature bytes and then running `decrypt` yields
the still-padded plaintext, because the `cryptography` cipher's `finalize`
performs no unpadding (contrary to the comment at line 100 of the source);
a standard PKCS#7 unpad of the result recovers the original plaintext. -/
theorem C3_decrypt_keeps_padding :
    decrypt (aesCbcEncryptPadded (List.replicate 32 0) (List.replicate 16 0) [123, 125])
        (List.replicate 64 0)
        "0000000000000000000000000000000000000000000000000000000000000000" =
      .ok [123, 125, 14, 14, 14, 14, 14, 14, 14, 14, 14, 14, 14, 14, 14, 14] ∧
    pkcs7Pad [123, 125] =
      [123, 125, 14, 14, 14, 14, 14, 14, 14, 14, 14, 14, 14, 14, 14, 14] ∧
    decrypt (aesCbcEncryptPadded (List.replicate 32 0) (List.replicate 16 0) [123, 125])
        (List.replicate 64 0)
        "0000000000000000000000000000000000000000000000000000000000000000" ≠
      .ok [123, 125] ∧
    pkcs7Unpad [123, 125, 14, 14, 14, 14, 14, 14, 14, 14, 14, 14, 14, 14, 14, 14] =
      some [123, 125] := by
  have h1 : decrypt (aesCbcEncryptPadded (List.replicate 32 0) (List.replicate 16 0)
      [123, 125]) (List.replicate 64 0)
      "0000000000000000000000000000000000000000000000000000000000000000" =
      .ok [123, 125, 14, 14, 14, 14, 14, 14, 14, 14, 14, 14, 14, 14, 14, 14] := by
    decide
  refine ⟨h1, by decide, ?_, by decide⟩
  rw [h1]
  decide

/-- C4: on success the AES key is the first 32 bytes of the group key and
the IV the first 16 decoded signature bytes, and `decrypt` fails exactly on
a short group key, malformed signature hex, a decoded signature shorter than
16 bytes, or a ciphertext that is not a whole number of blocks - but never
on invalid padding: a 16-byte ciphertext whose plaintext ends in a 0 byte
(invalid PKCS#7) is decrypted without error, where the claim demands
failure. -/
theorem C4_decrypt_error_conditions (payload group_key : List Nat) (sig : String) :
    (∀ bs, decrypt payload group_key sig = .ok bs →
      32 ≤ group_key.length ∧
      ∃ iv_buf, bytesFromHex sig.data = some iv_buf ∧ 16 ≤ iv_buf.length ∧
        payload.length % 16 = 0 ∧
        bs = (cbcDecryptBlocks (group_key.take 32) (iv_buf.take 16)
          (chunks16 payload.length payload)).flatten) ∧
    ((decrypt payload group_key sig).isOk = false ↔
      (group_key.length < 32 ∨ bytesFromHex sig.data = none ∨
        (∃ iv_buf, bytesFromHex sig.data = some iv_buf ∧ iv_buf.length < 16) ∨
        payload.length % 16 ≠ 0)) ∧
    decrypt [220, 236, 119, 176, 39, 209, 155, 48, 35, 22, 252, 62, 99, 125, 62, 51]
        (List.replicate 64 0)
        "0000000000000000000000000000000000000000000000000000000000000000" =
      .ok (List.replicate 15 65 ++ [0]) ∧
    pkcs7Unpad (List.replicate 15 65 ++ [0]) = none := by
  refine ⟨?_, ?_, by decide, by decide⟩
  · intro bs h
    unfold decrypt at h
    by_cases h1 : group_key.length < 32
    · rw [if_pos h1] at h
      exact absurd h (by simp)
    · rw [if_neg h1] at h
      cases h2 : bytesFromHex sig.data with
      | none =>
        simp only [h2] at h
        exact absurd h (by simp)
      | some iv_buf =>
        simp only [h2] at h
        by_cases h3 : iv_buf.length < 16
        · rw [if_pos h3] at h
          exact absurd h (by simp)
        · rw [if_neg h3] at h
          by_cases h4 : payload.length % 16 ≠ 0
          · rw [if_pos h4] at h
            exact absurd h (by simp)
          · rw [if_neg h4] at h
            simp only [Except.ok.injEq] at h
            exact ⟨by omega, iv_buf, rfl, by omega, by omega, h.symm⟩
  · by_cases h1 : group_key.length < 32
    · have hd : decrypt payload group_key sig =
          .error "Group key too short (< 32 bytes) to derive AES-256 key" := by
        unfold decrypt
        rw [if_pos h1]
      rw [hd]
      simp [Except.isOk, Except.toBool]
      exact Or.inl h1
    · cases h2 : bytesFromHex sig.data with
      | none =>
        have hd : decrypt payload group_key sig =
            .error "Invalid hex format in server signature for IV derivation" := by
          unfold decrypt
          rw [if_neg h1]
          simp only [h2]
        rw [hd]
        simp [Except.isOk, Except.toBool]
      | some iv_buf =>
        by_cases h3 : iv_buf.length < 16
        · have hd : decrypt payload group_key sig =
              .error "Server signature too short (< 16 bytes) to derive 16-byte IV" := by
            unfold decrypt
            rw [if_neg h1]
            simp only [h2]
            rw [if_pos h3]
          rw [hd]
          simp [Except.isOk, Except.toBool]
          exact Or.inr (Or.inl h3)
        · by_cases h4 : payload.length % 16 = 0
          · have hd : decrypt payload group_key sig =
                .ok ((cbcDecryptBlocks (group_key.take 32) (iv_buf.take 16)
                  (chunks16 payload.length payload)).flatten) := by
              unfold decrypt
              rw [if_neg h1]
              simp only [h2]
              rw [if_neg h3,
                if_neg (show ¬payload.length % 16 ≠ 0 from fun hc => hc h4)]
            rw [hd]
            constructor
            · intro hfalse
              simp [Except.isOk, Except.toBool] at hfalse
            · rintro (h | h | ⟨iv', hiv', hlt⟩ | h)
              · omega
              · exact Option.noConfusion h
              · have heq := Option.some.inj hiv'
                subst heq
                exact absurd hlt h3
              · exact absurd h4 h
          · have hd : decrypt payload group_key sig =
                .error "The length of the provided data is not a multiple of the block length" := by
              unfold decrypt
              rw [if_neg h1]
              simp only [h2]
              rw [if_neg h3, if_pos h4]
            rw [hd]
            simp [Except.isOk, Except.toBool]
            exact Or.inr (Or.inr h4)

/-- Witness for C4: the success characterization applied to the concrete
invalid-padding ciphertext. -/
theorem C4_decrypt_error_conditions_witness :
    32 ≤ (List.replicate 64 (0 : Nat)).length ∧
    ∃ iv_buf, bytesFromHex ("0000000000000000000000000000000000000000000000000000000000000000" : String).data = some iv_buf ∧ 16 ≤ iv_buf.length ∧
      ([220, 236, 119, 176, 39, 209, 155, 48, 35, 22, 252, 62, 99, 125, 62, 51] : List Nat).length % 16 = 0 ∧
      List.replicate 15 65 ++ [0] = (cbcDecryptBlocks ((List.replicate 64 0).take 32)
        (iv_buf.take 16) (chunks16 ([220, 236, 119, 176, 39, 209, 155, 48, 35, 22,
          252, 62, 99, 125, 62, 51] : List Nat).length
          [220, 236, 119, 176, 39, 209, 155, 48, 35, 22, 252, 62, 99, 125, 62, 51])).flatten :=
  (C4_decrypt_error_conditions
      [220, 236, 119, 176, 39, 209, 155, 48, 35, 22, 252, 62, 99, 125, 62, 51]
      (List.replicate 64 0)
      "0000000000000000000000000000000000000000000000000000000000000000").1
    (List.replicate 15 65 ++ [0]) (by decide)

/-! Orchestrator response handling (`main_route`, lines 326-406 of the
source): the 204/empty-body short circuit, the `X-Signature` header checks,
decryption, lenient UTF-8 decoding and the mode-dependent result.  Flask
responses are modelled by their body, mimetype and status; `jsonify` error
responses by the `errorJson` constructor.  The explore-mode rendering of a
non-empty decrypted body (JSON pretty-printing, lines 362-401) is outside
every claim and is passed in as the `exploreRender` parameter. -/

/-- A caller-visible response of the route handler. -/
inductive RouteResult where
  | response (body : String) (mimetype : String) (status : Nat) : RouteResult
  | errorJson (msg : String) (status : Nat) : RouteResult
deriving DecidableEq

/-- The Unicode replacement character U+FFFD. -/
def repl : Char := Char.ofNat 0xFFFD

/-- Python's `bytes.decode('utf-8', errors='replace')`: valid sequences
decode normally; a maximal valid prefix of an invalid or truncated sequence
is replaced by one U+FFFD, a lone invalid byte by one U+FFFD. -/
def utf8DecodeReplace : List Nat → List Char
  | [] => []
  | b :: rest =>
    if b < 0x80 then Char.ofNat b :: utf8DecodeReplace rest
    else if 0xC2 ≤ b ∧ b ≤ 0xDF then
      match rest with
      | [] => [repl]
      | b1 :: rest1 =>
        if 0x80 ≤ b1 ∧ b1 ≤ 0xBF then
          Char.ofNat ((b - 0xC0) * 64 + (b1 - 0x80)) :: utf8DecodeReplace rest1
        else repl :: utf8DecodeReplace (b1 :: rest1)
    else if 0xE0 ≤ b ∧ b ≤ 0xEF then
      match rest with
      | [] => [repl]
      | b1 :: rest1 =>
        if (if b = 0xE0 then 0xA0 else 0x80) ≤ b1 ∧
            b1 ≤ (if b = 0xED then 0x9F else 0xBF) then
          match rest1 with
          | [] => [repl]
          | b2 :: rest2 =>
            if 0x80 ≤ b2 ∧ b2 ≤ 0xBF then
              Char.ofNat ((b - 0xE0) * 4096 + (b1 - 0x80) * 64 + (b2 - 0x80)) ::
                utf8DecodeReplace rest2
            else repl :: utf8DecodeReplace (b2 :: rest2)
        else repl :: utf8DecodeReplace (b1 :: rest1)
    else if 0xF0 ≤ b ∧ b ≤ 0xF4 then
      match rest with
      | [] => [repl]
      | b1 :: rest1 =>
        if (if b = 0xF0 then 0x90 else 0x80) ≤ b1 ∧
            b1 ≤ (if b = 0xF4 then 0x8F else 0xBF) then
          match rest1 with
          | [] => [repl]
          | b2 :: rest2 =>
            if 0x80 ≤ b2 ∧ b2 ≤ 0xBF then
              match rest2 with
              | [] => [repl]
              | b3 :: rest3 =>
                if 0x80 ≤ b3 ∧ b3 ≤ 0xBF then
                  Char.ofNat ((b - 0xF0) * 262144 + (b1 - 0x80) * 4096 +
                    (b2 - 0x80) * 64 + (b3 - 0x80)) :: utf8DecodeReplace rest3
                else repl :: utf8DecodeReplace (b3 :: rest3)
            else repl :: utf8DecodeReplace (b2 :: rest2)
        else repl :: utf8DecodeReplace (b1 :: rest1)
    else repl :: utf8DecodeReplace rest

/-- The minimal explore-mode page of line 333 of the source:
`f"<html><body><h1>{response.status_code} No Content</h1><p>Path: {host}{resource_path_on_device}</p></body></html>"`. -/
def noContentHtml (host path : String) (status : Nat) : String :=
  "<html><body><h1>" ++ Nat.repr status ++ " No Content</h1><p>Path: " ++
    host ++ path ++ "</p></body></html>"

/-- Python's `str.startswith` on character lists. -/
def pyStartsWithChars (l p : List Char) : Bool := l.take p.length == p

/-- Lines 326-406 of the source, parameterized over the decrypt function
(`dec`, instantiated with `decrypt` below) and the explore-mode rendering of
a non-empty body (`exploreRender`): the 204/empty short circuit, the
`X-Signature` presence and `MieleH256 <id>:<sig>` format checks, decryption
(a `ValueError` is caught at line 426 and mapped to a 500), lenient UTF-8
decoding, and the JSON-mode passthrough response. -/
def process_device_response_with
    (dec : List Nat → List Nat → String → Except String (List Nat))
    (exploreRender : String → RouteResult)
    (is_explore : Bool) (host path : String) (group_key : List Nat)
    (status : Nat) (content : List Nat) (xSignature : Option String) :
    RouteResult :=
  if status = 204 ∨ content = [] then
    if is_explore then
      .response (noContentHtml host path status) "text/html" status
    else
      .response "" "application/json" 204
  else
    match xSignature with
    | none => .errorJson "Missing required X-Signature header from device" 500
    | some hdr =>
      let sig_parts := hdr.data.splitOn ':'
      if sig_parts.length = 2 ∧
          pyStartsWithChars (sig_parts.getD 0 []) "MieleH256 ".data = true then
        match dec content group_key (String.mk (sig_parts.getD 1 [])) with
        | .error e => .errorJson ("Data processing error: " ++ e) 500
        | .ok decrypted_bytes =>
          let decrypted_str := String.mk (utf8DecodeReplace decrypted_bytes)
          if is_explore then exploreRender decrypted_str
          else .response decrypted_str "application/json" 200
      else .errorJson "Invalid X-Signature header format from device" 500

/-- The response handling with the real `decrypt`. -/
def process_device_response (exploreRender : String → RouteResult)
    (is_explore : Bool) (host path : String) (group_key : List Nat)
    (status : Nat) (content : List Nat) (xSignature : Option String) :
    RouteResult :=
  process_device_response_with decrypt exploreRender is_explore host path
    group_key status content xSignature

/-- C8: a device response with status 204 or an empty body short-circuits:
the result is the same for every decrypt function and every explore
renderer (no decryption and no body parsing occur); JSON mode returns a
bodyless 204 and explore mode the minimal No Content page carrying the
device's status code (here pinned at status 204). -/
theorem C8_no_content_short_circuit
    (dec : List Nat → List Nat → String → Except String (List Nat))
    (exploreRender : String → RouteResult) (host path : String)
    (group_key content : List Nat) (status : Nat) (xSig : Option String)
    (h : status = 204 ∨ content = []) :
    process_device_response_with dec exploreRender true host path group_key
        status content xSig =
      .response (noContentHtml host path status) "text/html" status ∧
    process_device_response_with dec exploreRender false host path group_key
        status content xSig =
      .response "" "application/json" 204 ∧
    noContentHtml "h" "/p" 204 =
      "<html><body><h1>204 No Content</h1><p>Path: h/p</p></body></html>" := by
  refine ⟨?_, ?_, by decide⟩
  · unfold process_device_response_with
    rw [if_pos h]
    rfl
  · unfold process_device_response_with
    rw [if_pos h]
    rfl

/-- Witness for C8 at a concrete 204 response with a non-empty body. -/
theorem C8_no_content_short_circuit_witness :
    process_device_response_with decrypt (fun s => .errorJson s 0) true "h" "/p"
        (List.replicate 64 0) 204 [1] none =
      .response (noContentHtml "h" "/p" 204) "text/html" 204 ∧
    process_device_response_with decrypt (fun s => .errorJson s 0) false "h" "/p"
        (List.replicate 64 0) 204 [1] none =
      .response "" "application/json" 204 :=
  ⟨(C8_no_content_short_circuit decrypt (fun s => .errorJson s 0) "h" "/p"
      (List.replicate 64 0) [1] 204 none (Or.inl rfl)).1,
   (C8_no_content_short_circuit decrypt (fun s => .errorJson s 0) "h" "/p"
      (List.replicate 64 0) [1] 204 none (Or.inl rfl)).2.1⟩

/-- C10 (implicit): in JSON (non-explore) mode, whenever decryption succeeds
on a non-204, non-empty response with a well-formed `X-Signature` header,
the gateway returns the decrypted bytes decoded as UTF-8 with invalid
sequences replaced, with status 200 and content type `application/json`,
for every plaintext - valid JSON or not - and never invokes the explore
renderer: no JSON validation of the body happens in this mode. -/
theorem C10_json_mode_returns_unvalidated
    (exploreRender : String → RouteResult) (host path : String)
    (group_key content : List Nat) (status : Nat) (hdr : String) (bs : List Nat)
    (hnc : ¬(status = 204 ∨ content = []))
    (hfmt : (hdr.data.splitOn ':').length = 2 ∧
      pyStartsWithChars ((hdr.data.splitOn ':').getD 0 []) "MieleH256 ".data = true)
    (hdec : decrypt content group_key
      (String.mk ((hdr.data.splitOn ':').getD 1 [])) = .ok bs) :
    process_device_response exploreRender false host path group_key status
        content (some hdr) =
      .response (String.mk (utf8DecodeReplace bs)) "application/json" 200 := by
  unfold process_device_response process_device_response_with
  rw [if_neg hnc]
  simp only []
  rw [if_pos hfmt, hdec]
  rfl

/-- Witness for C10: the concrete ciphertext of the C3 analysis decrypts to
the padded plaintext and is passed through as-is in JSON mode. -/
theorem C10_json_mode_returns_unvalidated_witness :
    process_device_response (fun s => .errorJson s 0) false "h" "/p"
        (List.replicate 64 0) 200
        [104, 76, 249, 75, 253, 200, 180, 124, 253, 38, 44, 105, 92, 198, 54, 58]
        (some "MieleH256 0000000000000000:0000000000000000000000000000000000000000000000000000000000000000") =
      .response (String.mk (utf8DecodeReplace
        [123, 125, 14, 14, 14, 14, 14, 14, 14, 14, 14, 14, 14, 14, 14, 14]))
        "application/json" 200 :=
  C10_json_mode_returns_unvalidated (fun s => .errorJson s 0) "h" "/p"
    (List.replicate 64 0)
    [104, 76, 249, 75, 253, 200, 180, 124, 253, 38, 44, 105, 92, 198, 54, 58]
    200
    "MieleH256 0000000000000000:0000000000000000000000000000000000000000000000000000000000000000"
    [123, 125, 14, 14, 14, 14, 14, 14, 14, 14, 14, 14, 14, 14, 14, 14]
    (by decide) (by decide) (by decide)

end MieleGateway
